import Mathlib

/-!
# Verification of the hit-song predictor core

A shallow embedding, in Lean 4, of the core logic of the
`spotify-hit-song-predictor` backend:

* `backend/predictions/inference.py` — feature-vector preparation and
  classifier invocation (`prepare_features`, `predict_song`);
* `backend/predictions/views.py` — the manual-input validation
  (`predict_manual`), the dataset/model label reconciliation and the
  song upsert + prediction/audit persistence of `predict_from_spotify`;
* `backend/predictions/spotify_service.py` — dataset lookup
  (`get_audio_features_from_dataset`), feature resolution
  (`get_audio_features`) and the title+artist resolution flow;
* `backend/predictions/models.py` — the `Song.save` hook;
* `backend/predictions/management/commands/import_dataset.py` — the CSV
  bulk import of the reference dataset.

Python machine floats are embedded as exact rationals (`Rat`), except
that a possibly-NaN float cell is embedded as `PyF` (either NaN or a
rational); no claim here depends on binary rounding of IEEE arithmetic.
External collaborators (the remote catalog HTTP API, the database) are
passed in as explicit values: a remote call that can fail is an
`Option`-valued input, the Song table is a `List Song`.
-/

namespace HitSong

/-- Truncation of a rational toward zero, the behavior of Python
`int(x)` on a float `x`. -/
def ratTrunc (q : Rat) : Int :=
  if 0 ≤ q then ⌊q⌋ else -⌊-q⌋

/-- Round-half-to-even of a rational to an integer, the tie-breaking
behavior of Python `round`. -/
def roundHalfEven (y : Rat) : Int :=
  let f := ⌊y⌋
  let frac := y - (f : Rat)
  if frac < 1/2 then f
  else if 1/2 < frac then f + 1
  else if f % 2 = 0 then f else f + 1

/-- Python `round(x, 2)`: round to two decimal places, ties to even. -/
def pyRound2 (x : Rat) : Rat :=
  (roundHalfEven (x * 100) : Rat) / 100

/-- A Python float value that may be NaN (`float("nan")`, e.g. produced
by `float` applied to an empty pandas cell). NaN compares false under
every ordering comparison, which `PyF.gtLit` reproduces. -/
inductive PyF where
  | nan : PyF
  | num (q : Rat) : PyF
deriving DecidableEq

/-- Python `x > c` for a possibly-NaN float `x` and a literal `c`:
NaN is not greater than anything. -/
def PyF.gtLit : PyF → Rat → Bool
  | .nan, _ => false
  | .num q, c => decide (c < q)

/-- A JSON-decoded Python value as it can appear as a field of the
request body handled by `predict_manual` (`json.loads` produces
`str`, `int`, `float`, `bool` and `None` scalars). -/
inductive PyVal where
  | int (n : Int)
  | float (q : Rat)
  | str (s : String)
  | bool (b : Bool)
  | null
deriving DecidableEq

/-- Parse a non-empty all-digit character list as a natural number
(helper for the embedding of Python numeric-string conversion). -/
def parseDigits (cs : List Char) : Option Nat :=
  match cs with
  | [] => Option.none
  | _ =>
    cs.foldl
      (fun acc c =>
        match acc with
        | Option.none => Option.none
        | Option.some a => if c.isDigit then Option.some (a * 10 + (c.toNat - 48)) else Option.none)
      (Option.some 0)

/-- Strip leading and trailing whitespace from a character list
(Python `str.strip`, Lean's byte-based `String.trim` restated over
the character list so that it evaluates by `decide`). -/
def trimChars (cs : List Char) : List Char :=
  (((cs.dropWhile Char.isWhitespace).reverse.dropWhile Char.isWhitespace).reverse)

/-- `str.strip` on a string. -/
def strTrim (s : String) : String :=
  String.mk (trimChars s.data)

/-- Split a character list at every occurrence of `sep` (Python
`str.split(sep)`): `"".split` gives one empty group. -/
def splitChar (sep : Char) : List Char → List (List Char)
  | [] => [[]]
  | c :: rest =>
    if c = sep then [] :: splitChar sep rest
    else
      match splitChar sep rest with
      | [] => [[c]]
      | g :: gs => (c :: g) :: gs

/-- Embedding of Python `int(s)` on a string: optional sign followed by
decimal digits; anything else (in particular a string with a decimal
point, such as `"3.5"`) raises `ValueError`, embedded as `none`. -/
def pyIntOfString (s : String) : Option Int :=
  match trimChars s.data with
  | [] => Option.none
  | c :: rest =>
    if c = '-' then (parseDigits rest).map (fun n => -(n : Int))
    else if c = '+' then (parseDigits rest).map (fun n => (n : Int))
    else (parseDigits (c :: rest)).map (fun n => (n : Int))

/-- Value of a fractional digit string: `"25"` means `0.25`. -/
def parseFrac (cs : List Char) : Option Rat :=
  cs.foldr
    (fun c acc =>
      match acc with
      | Option.none => Option.none
      | Option.some r => if c.isDigit then Option.some ((((c.toNat - 48 : Nat) : Rat) + r) / 10) else Option.none)
    (Option.some 0)

/-- Unsigned part of Python `float(s)`: decimal digits with at most one
decimal point, at least one digit overall. -/
def parseUnsignedFloat (t : List Char) : Option Rat :=
  match splitChar '.' t with
  | [ip] => (parseDigits ip).map (fun n => (n : Rat))
  | [ip, fp] =>
    if ip.isEmpty && fp.isEmpty then Option.none
    else
      let ipv : Option Rat :=
        if ip.isEmpty then Option.some 0 else (parseDigits ip).map (fun n => (n : Rat))
      let fpv : Option Rat := if fp.isEmpty then Option.some 0 else parseFrac fp
      match ipv, fpv with
      | Option.some a, Option.some b => Option.some (a + b)
      | _, _ => Option.none
  | _ => Option.none

/-- Embedding of Python `float(s)` on a string (decimal literal forms;
the exotic forms `nan`/`inf`/exponents are not needed by any claim). -/
def pyFloatOfString (s : String) : Option Rat :=
  match trimChars s.data with
  | [] => Option.none
  | c :: rest =>
    if c = '-' then (parseUnsignedFloat rest).map (fun q => -q)
    else if c = '+' then parseUnsignedFloat rest
    else parseUnsignedFloat (c :: rest)

/-- Python `float(v)` on a JSON scalar: numbers and bools convert,
numeric strings parse, `None` raises `TypeError` (`none`). -/
def pyFloat : PyVal → Option Rat
  | .int n => Option.some (n : Rat)
  | .float q => Option.some q
  | .bool b => Option.some (if b then 1 else 0)
  | .str s => pyFloatOfString s
  | .null => Option.none

/-- Python `int(v)` on a JSON scalar: ints and bools convert, floats
truncate toward zero, strings must be integer literals (`int("3.5")`
raises), `None` raises. -/
def pyInt : PyVal → Option Int
  | .int n => Option.some n
  | .float q => Option.some (ratTrunc q)
  | .bool b => Option.some (if b then 1 else 0)
  | .str s => pyIntOfString s
  | .null => Option.none

/-- Result of the reconciliation step of `predict_from_spotify`
(views.py lines 199-224): final label, final confidence and the
`adjusted_by_dataset` flag. -/
structure ReconResult where
  isHit : Bool
  confidence : Rat
  adjusted : Bool
deriving DecidableEq

/-- views.py lines 199-224: start from the model's label and confidence;
when the song is in the reference dataset (`source == 'dataset'`),
either override with the dataset label (disagreement) with confidence
`max(60.0, model_confidence + 10.0)` and `adjusted_by_dataset = True`,
or keep the label (agreement) with confidence
`min(95.0, model_confidence + 5.0)`. -/
def reconcile (modelHit : Bool) (modelConfidence : Rat)
    (inDataset : Bool) (isHitInDataset : Bool) : ReconResult :=
  if inDataset then
    if isHitInDataset != modelHit then
      { isHit := isHitInDataset
        confidence := max 60 (modelConfidence + 10)
        adjusted := true }
    else
      { isHit := modelHit
        confidence := min 95 (modelConfidence + 5)
        adjusted := false }
  else
    { isHit := modelHit, confidence := modelConfidence, adjusted := false }

/-- The loaded classifier artifact (inference.py `load_model`): its
`predict` decision function, and its `predict_proba` probability
interface when it has one (`except AttributeError` in `predict_song`
is the case `probaFn = none`). `predictFn` is the first entry of
`model.predict(features)`; `probaFn` is the row
`model.predict_proba(features)[0]` of per-class probabilities. -/
structure Classifier where
  predictFn : List Rat → Int
  probaFn : Option (List Rat → List Rat)

/-- inference.py `predict_song` (lines 82-107): label is
`bool(model.predict(features)[0])`; confidence is `proba[1]` when the
probability row has more than one entry, else `proba[0]`, defaulting
to `0.5` when the classifier has no `predict_proba`; reported as a
percentage rounded to two decimals. (The source indexes `proba[0]`
of a row sklearn always returns non-empty; on an empty row this
embedding yields 0 where the source would raise.) -/
def predict_song (model : Classifier) (features : List Rat) : Bool × Rat :=
  let prediction := model.predictFn features
  let confidence : Rat :=
    match model.probaFn with
    | Option.none => 1/2
    | Option.some f =>
      let proba := f features
      if 1 < proba.length then proba.getD 1 0 else proba.getD 0 0
  (prediction != 0, pyRound2 (confidence * 100))

/-- The validation/build error of `predict_manual` (views.py lines
440-468): `missing` is the 400 response naming the absent keys
(the spec's `MissingFeatureError`), `invalid` the 400 "Invalid value"
response (the spec's `InvalidFeatureTypeError`). -/
inductive BuildError where
  | missing (keys : List String)
  | invalid
deriving DecidableEq

/-- The ten required feature keys, in the order `predict_manual`
checks them and `prepare_features` lays the vector out. -/
def requiredFields : List String :=
  ["duration_ms", "danceability", "energy", "valence",
   "acousticness", "instrumentalness", "explicit",
   "loudness", "tempo", "mode"]

/-- Per-field conversion applied by `predict_manual`'s `validated`
dict: `int(...)` for `duration_ms` and `mode`, `float(...)` for the
other eight (the resulting vector is all-float after
`prepare_features`). -/
def convertField (f : String) (v : PyVal) : Option Rat :=
  if f = "duration_ms" || f = "mode" then (pyInt v).map (fun n => (n : Rat))
  else pyFloat v

/-- Convert the listed fields of a request mapping in order; the first
failing conversion aborts (the `except (ValueError, TypeError)` of
`predict_manual`). -/
def convertAll (data : String → Option PyVal) : List String → Option (List Rat)
  | [] => Option.some []
  | f :: fs =>
    match (data f).bind (convertField f) with
    | Option.none => Option.none
    | Option.some v =>
      match convertAll data fs with
      | Option.none => Option.none
      | Option.some vs => Option.some (v :: vs)

/-- The feature-vector builder of the manual prediction route
(views.py lines 440-468 followed by inference.py `prepare_features`):
first collect the required keys absent from the request body and fail
naming them; then convert every value with its field's converter,
failing on the first value that does not convert; on success the
ordered length-10 vector. -/
def build (data : String → Option PyVal) : Except BuildError (List Rat) :=
  let missingKeys := requiredFields.filter (fun f => (data f).isNone)
  if missingKeys.isEmpty then
    match convertAll data requiredFields with
    | Option.some vec => Except.ok vec
    | Option.none => Except.error BuildError.invalid
  else
    Except.error (BuildError.missing missingKeys)

/-- A row of the `Song` table (models.py): nullable columns are
`Option`, float columns are `PyF` because the CSV import can store
NaN in them. -/
structure Song where
  trackId : Option String
  trackName : Option String
  artists : Option String
  albumName : Option String
  popularity : Option Int
  trackGenre : Option String
  durationMs : Int
  danceability : PyF
  energy : PyF
  valence : PyF
  acousticness : PyF
  instrumentalness : PyF
  speechiness : Option PyF
  liveness : Option PyF
  loudness : PyF
  tempo : PyF
  mode : Int
  key : Option Int
  timeSignature : Option Int
  explicit : Bool
  isAcoustic : Bool
  isInstrumental : Bool
  isHit : Option Bool
deriving DecidableEq

/-- models.py `Song.save` (lines 137-148): before every save through
the model layer, recompute `is_acoustic`, `is_instrumental`, and —
whenever `popularity` is not NULL — `is_hit = popularity >= 50`. -/
def songSaveNormalize (s : Song) : Song :=
  { s with
    isAcoustic := s.acousticness.gtLit (1/2)
    isInstrumental := s.instrumentalness.gtLit (1/2)
    isHit :=
      match s.popularity with
      | Option.some p => Option.some (decide (50 ≤ p))
      | Option.none => s.isHit }

/-- One data row of `cleaned_data.csv` as pandas hands it to
`import_dataset.Command.handle`: every required column exists (the
command aborts earlier otherwise), and a cell is `none` when the cell
is empty (pandas NaN). `isHitCell` embeds a possible `is_hit` column
of the file, which the import never reads. -/
structure CsvRow where
  trackId : Option String
  trackName : Option String
  artists : Option String
  albumName : Option String
  popularity : Option Rat
  trackGenre : Option String
  durationMs : Option Rat
  danceability : Option Rat
  energy : Option Rat
  valence : Option Rat
  acousticness : Option Rat
  instrumentalness : Option Rat
  loudness : Option Rat
  tempo : Option Rat
  mode : Option Rat
  explicitCell : Option Bool
  keyCell : Option Rat
  speechiness : Option Rat
  liveness : Option Rat
  timeSignature : Option Rat
  isHitCell : Option Bool
deriving DecidableEq

/-- Python `float(cell)` on a pandas cell: `float(nan)` is NaN, it does
not raise. -/
def cellFloat : Option Rat → PyF
  | Option.none => PyF.nan
  | Option.some q => PyF.num q

/-- Python `int(cell)` on a pandas cell: `int(nan)` raises
`ValueError` (`none`); a numeric value truncates toward zero. -/
def cellInt : Option Rat → Option Int
  | Option.none => Option.none
  | Option.some q => Option.some (ratTrunc q)

/-- Python `bool(cell)`: NaN is truthy, so an empty cell of the
`explicit` column imports as `True`. -/
def cellBool : Option Bool → Bool
  | Option.none => true
  | Option.some b => b

/-- Outcome of one loop iteration of `Command.handle` (import_dataset.py
lines 77-126): the row is skipped because its `track_id` already
exists, the row is skipped because building the `Song` raised (the
per-row `except` logs a warning and continues), or a `Song` record is
queued for `bulk_create`. -/
inductive RowOutcome where
  | skippedExisting
  | rowError
  | record (s : Song)
deriving DecidableEq

/-- import_dataset.py lines 77-126, one row: check for an existing
`track_id`; compute `popularity` (NULL on an empty cell) and from it
`is_hit = popularity >= 50` (never from the file); then build the
`Song` — `int(...)` on an empty `duration_ms` or `mode` cell raises
and the row is dropped, `float(...)` on an empty float cell stores
NaN. `bulk_create` bypasses `Song.save`, so no normalization runs and
`is_acoustic`/`is_instrumental` keep their `False` default. -/
def importRow (store : List Song) (row : CsvRow) : RowOutcome :=
  let exists_ : Bool :=
    match row.trackId with
    | Option.some t => store.any (fun s => s.trackId == Option.some t)
    | Option.none => false
  if exists_ then RowOutcome.skippedExisting
  else
    let popularity : Option Int := row.popularity.map ratTrunc
    let isHit : Option Bool := popularity.map (fun p => decide (50 ≤ p))
    match cellInt row.durationMs, cellInt row.mode with
    | Option.some d, Option.some m =>
      RowOutcome.record
        { trackId := row.trackId
          trackName := row.trackName
          artists := row.artists
          albumName := row.albumName
          popularity := popularity
          trackGenre := row.trackGenre
          isHit := isHit
          durationMs := d
          danceability := cellFloat row.danceability
          energy := cellFloat row.energy
          valence := cellFloat row.valence
          acousticness := cellFloat row.acousticness
          instrumentalness := cellFloat row.instrumentalness
          loudness := cellFloat row.loudness
          tempo := cellFloat row.tempo
          mode := m
          explicit := cellBool row.explicitCell
          key := row.keyCell.map ratTrunc
          speechiness := row.speechiness.map PyF.num
          liveness := row.liveness.map PyF.num
          timeSignature := row.timeSignature.map ratTrunc
          isAcoustic := false
          isInstrumental := false }
    | _, _ => RowOutcome.rowError

/-- The whole import loop: every row is processed independently; rows
that fail or already exist are dropped, the rest become records. It is
total — no row can abort the import. -/
def importAll (store : List Song) (rows : List CsvRow) : List Song :=
  rows.filterMap (fun r =>
    match importRow store r with
    | RowOutcome.record s => Option.some s
    | _ => Option.none)

/-- The `danceability` field of an imported record, `none` when the
row produced no record. -/
def importedDance : RowOutcome → Option PyF
  | RowOutcome.record s => Option.some s.danceability
  | _ => Option.none

/-- ASCII lowercasing of one character (the case folding relevant to
the `__iexact`/`__icontains` matching of the dataset lookup). -/
def lowerChar (c : Char) : Char :=
  if 'A' ≤ c && c ≤ 'Z' then Char.ofNat (c.toNat + 32) else c

/-- Lowercased character list of a string (basis of the
case-insensitive matching of `get_audio_features_from_dataset`). -/
def lowerChars (s : String) : List Char :=
  s.data.map lowerChar

/-- `nee` occurs as a contiguous run inside `hay`. -/
def listContains (hay nee : List Char) : Bool :=
  (List.range (hay.length + 1)).any (fun i => List.isPrefixOf nee (hay.drop i))

/-- Case-insensitive substring test: Django `__icontains`. -/
def strContainsCI (hay nee : String) : Bool :=
  listContains (lowerChars hay) (lowerChars nee)

/-- Django `field__iexact=v` on a nullable column: NULL matches
nothing. -/
def optIexact (fld : Option String) (v : String) : Bool :=
  match fld with
  | Option.none => false
  | Option.some t => lowerChars t == lowerChars v

/-- Django `field__icontains=v` on a nullable column: NULL matches
nothing. -/
def optIcontains (fld : Option String) (v : String) : Bool :=
  match fld with
  | Option.none => false
  | Option.some t => strContainsCI t v

/-- spotify_service.py lines 134-136: the artist used for matching is
the first entry of a comma-separated artist list, trimmed
(`artist_name.strip().split(',')[0].strip()`). -/
def firstArtist (artistName : String) : String :=
  strTrim (String.mk ((trimChars artistName.data).takeWhile (fun c => c ≠ ',')))

/-- The primary dataset query of `get_audio_features_from_dataset`:
`track_name__iexact` and `artists__icontains`. -/
def exactMatch (trackClean artistFirst : String) (s : Song) : Bool :=
  optIexact s.trackName trackClean && optIcontains s.artists artistFirst

/-- The fallback dataset query: `track_name__icontains` and
`artists__icontains`. -/
def containsMatch (trackClean artistFirst : String) (s : Song) : Bool :=
  optIcontains s.trackName trackClean && optIcontains s.artists artistFirst

/-- spotify_service.py `get_audio_features_from_dataset` (lines
120-172), the lookup part: trim both inputs, keep only the first
comma-separated artist, try the exact (case-insensitive) title match
first and the substring title match second. `.first()` is the first
matching row of the table. -/
def datasetLookup (store : List Song) (trackName artistName : String) : Option Song :=
  let trackClean := strTrim trackName
  let artistFirst := firstArtist artistName
  match store.find? (exactMatch trackClean artistFirst) with
  | Option.some song => Option.some song
  | Option.none => store.find? (containsMatch trackClean artistFirst)

/-- Python `s or d` for a nullable string `s`: `None` and `""` are
falsy. -/
def pyOrStr (s : Option String) (d : String) : String :=
  match s with
  | Option.none => d
  | Option.some v => if v = "" then d else v

/-- The metadata dict built by `SpotifyService.get_track_info`
(spotify_service.py lines 103-118) from a successful `/tracks/{id}`
response. The presentation-only URL fields (album image, Spotify URL,
preview URL) take part in no decision of the core and are omitted. -/
structure TrackInfo where
  trackId : String
  title : String
  artist : String
  album : String
  popularity : Int
  durationMs : Int
  explicitFlag : Int
deriving DecidableEq

/-- The body of a successful `/audio-features/{id}` response, as far
as `get_audio_features` copies it (spotify_service.py lines 211-223;
note `explicit` is not among the copied keys). -/
structure ApiFeatures where
  durationMs : Int
  danceability : Rat
  energy : Rat
  valence : Rat
  acousticness : Rat
  instrumentalness : Rat
  loudness : Rat
  tempo : Rat
  mode : Int
deriving DecidableEq

/-- The resolved `audio_data` dict that `predict_from_spotify` consumes:
track metadata, the ten model features, the provenance tag `source`,
and the dataset label info when the song came from the dataset. -/
structure AudioData where
  trackId : Option String
  title : Option String
  artist : Option String
  album : Option String
  popularity : Int
  durationMs : Int
  danceability : PyF
  energy : PyF
  valence : PyF
  acousticness : PyF
  instrumentalness : PyF
  loudness : PyF
  tempo : PyF
  mode : Int
  explicitFlag : Int
  source : Option String
  isHitInDataset : Option Bool
  trackGenre : Option String
deriving DecidableEq

/-- The dict returned by `get_audio_features_from_dataset` (lines
154-172) merged over track metadata (`{**track_info,
**dataset_features}`): every feature, the title/artist/album/
popularity and the label info come from the dataset row; only
`track_id` survives from the metadata (`none` on the dataset-only
path of `predict_from_spotify`, lines 109-120, where it is set to
`None`). -/
def datasetAudio (tid : Option String) (s : Song) : AudioData :=
  { trackId := tid
    title := s.trackName
    artist := s.artists
    album := Option.some (pyOrStr s.albumName "Unknown")
    popularity := s.popularity.getD 0
    durationMs := s.durationMs
    danceability := s.danceability
    energy := s.energy
    valence := s.valence
    acousticness := s.acousticness
    instrumentalness := s.instrumentalness
    loudness := s.loudness
    tempo := s.tempo
    mode := s.mode
    explicitFlag := if s.explicit then 1 else 0
    source := Option.some "dataset"
    isHitInDataset := Option.some (s.isHit.getD false)
    trackGenre := Option.some (pyOrStr s.trackGenre "unknown") }

/-- The `{**track_info, ...features..., 'source': 'spotify_api'}` dict
of the remote-feature fallback (spotify_service.py lines 211-223):
metadata from the track, the nine copied features from the
`/audio-features` body, `explicit` kept from the metadata. -/
def apiAudio (info : TrackInfo) (f : ApiFeatures) : AudioData :=
  { trackId := Option.some info.trackId
    title := Option.some info.title
    artist := Option.some info.artist
    album := Option.some info.album
    popularity := info.popularity
    durationMs := f.durationMs
    danceability := PyF.num f.danceability
    energy := PyF.num f.energy
    valence := PyF.num f.valence
    acousticness := PyF.num f.acousticness
    instrumentalness := PyF.num f.instrumentalness
    loudness := PyF.num f.loudness
    tempo := PyF.num f.tempo
    mode := f.mode
    explicitFlag := info.explicitFlag
    source := Option.some "spotify_api"
    isHitInDataset := Option.none
    trackGenre := Option.none }

/-- The terminal failure of feature resolution by identifier
(spotify_service.py lines 229-233, the spec's
`FeaturesUnavailableError`). -/
inductive FeatErr where
  | featuresUnavailable
deriving DecidableEq

/-- spotify_service.py `get_audio_features` (lines 174-233): the track
metadata has already been fetched (`info`); look the song up in the
dataset by its title and artist — a hit supplies the features with
`source = 'dataset'` — otherwise call the remote `/audio-features`
endpoint (`api`, `none` when that call is unavailable, errors, or
returns an empty body), and fail with `FeaturesUnavailableError` when
neither source has the features. -/
def get_audio_features (store : List Song) (info : TrackInfo)
    (api : Option ApiFeatures) : Except FeatErr AudioData :=
  match datasetLookup store info.title info.artist with
  | Option.some s => Except.ok (datasetAudio (Option.some info.trackId) s)
  | Option.none =>
    match api with
    | Option.some f => Except.ok (apiAudio info f)
    | Option.none => Except.error FeatErr.featuresUnavailable

/-- One entry of a `search_tracks` result (spotify_service.py lines
255-267): identifier, title, artist and the `in_dataset` tag. -/
structure SearchTrack where
  id : String
  title : String
  artist : String
  inDataset : Bool
deriving DecidableEq

/-- The candidate loop of `predict_from_spotify` (views.py lines
133-144): walk the search results in order, and for each one tagged
`in_dataset` try `get_audio_features`; a raising fetch (`none`) logs a
warning and moves on. -/
def firstCandidate (rs : List SearchTrack) (fetch : String → Option AudioData) :
    Option AudioData :=
  match rs with
  | [] => Option.none
  | r :: rest =>
    if r.inDataset then
      match fetch r.id with
      | Option.some a => Option.some a
      | Option.none => firstCandidate rest fetch
    else firstCandidate rest fetch

/-- Outcome of resolving a prediction request by title+artist
(views.py lines 88-158): a resolved `audio_data`, the 404 "not found
on Spotify" response, or the 400 "not in our training dataset"
response carrying candidate `(id, title, artist)` hints (the spec's
`NotInTrainingDataError`). -/
inductive ResolveOutcome where
  | ok (a : AudioData)
  | notFoundOnSpotify
  | notInTrainingData (candidates : List (String × String × String))
deriving DecidableEq

/-- views.py lines 88-158: try the dataset directly; on a hit, enrich
with a best-effort single-result search (`searchOne`) for a track id,
falling back to dataset-only data. On a dataset miss, search with
limit 5 (`searchFive`): no results is the 404; otherwise resolve the
first `in_dataset` candidate whose feature fetch succeeds, and if
there is none, fail with the not-in-training-data response listing
the first three search results. -/
def resolveByTitleArtist (store : List Song) (title artist : String)
    (searchOne : Option SearchTrack) (searchFive : List SearchTrack)
    (fetch : String → Option AudioData) : ResolveOutcome :=
  match datasetLookup store title artist with
  | Option.some s =>
    match searchOne with
    | Option.some r => ResolveOutcome.ok (datasetAudio (Option.some r.id) s)
    | Option.none => ResolveOutcome.ok (datasetAudio Option.none s)
  | Option.none =>
    match searchFive with
    | [] => ResolveOutcome.notFoundOnSpotify
    | _ :: _ =>
      match firstCandidate searchFive fetch with
      | Option.some a => ResolveOutcome.ok a
      | Option.none =>
        ResolveOutcome.notInTrainingData
          ((searchFive.take 3).map (fun r => (r.id, r.title, r.artist)))

/-- Whether an outcome is the not-in-training-data failure. -/
def isNotInTraining : ResolveOutcome → Bool
  | ResolveOutcome.notInTrainingData _ => true
  | _ => false

/-- Replace the first element satisfying `p` (Django's
`get_or_create` fetches one row; `song.save()` then writes that row
back). -/
def updateFirst (p : Song → Bool) (f : Song → Song) : List Song → List Song
  | [] => []
  | s :: rest => if p s then f s :: rest else s :: updateFirst p f rest

/-- The `defaults` dict of the `Song.objects.get_or_create` call in
`predict_from_spotify` (views.py lines 228-252): a fresh row from the
resolved `audio_data`. `speechiness`, `liveness`, `key` and
`time_signature` are read with `.get`, and no resolved `audio_data`
carries those keys, so they are NULL; `is_acoustic`,
`is_instrumental` and `is_hit` are left to the model's defaults and
the `save` hook. -/
def newSongFromAudio (tid : String) (a : AudioData) : Song :=
  { trackId := Option.some tid
    trackName := a.title
    artists := a.artist
    albumName := a.album
    popularity := Option.some a.popularity
    trackGenre := Option.some (a.trackGenre.getD "")
    durationMs := a.durationMs
    danceability := a.danceability
    energy := a.energy
    valence := a.valence
    acousticness := a.acousticness
    instrumentalness := a.instrumentalness
    loudness := a.loudness
    tempo := a.tempo
    mode := a.mode
    explicit := a.explicitFlag == 1
    speechiness := Option.none
    liveness := Option.none
    key := Option.none
    timeSignature := Option.none
    isAcoustic := false
    isInstrumental := false
    isHit := Option.none }

/-- The update branch of the upsert (views.py lines 254-270): overwrite
title, artists, album, popularity and the ten feature fields of the
existing row with the newly resolved values; the other columns
(genre, speechiness, …) keep their stored values. -/
def updateSongFromAudio (s : Song) (a : AudioData) : Song :=
  { s with
    trackName := a.title
    artists := a.artist
    albumName := a.album
    popularity := Option.some a.popularity
    durationMs := a.durationMs
    danceability := a.danceability
    energy := a.energy
    valence := a.valence
    acousticness := a.acousticness
    instrumentalness := a.instrumentalness
    loudness := a.loudness
    tempo := a.tempo
    mode := a.mode
    explicit := a.explicitFlag == 1 }

/-- The full upsert of `predict_from_spotify` when a track id is
available (views.py lines 228-270): `get_or_create` by `track_id`,
update the found row or append a fresh one; either path goes through
`Song.save`, i.e. `songSaveNormalize`. -/
def upsertSongByTrackId (store : List Song) (tid : String) (a : AudioData) :
    List Song :=
  match store.find? (fun s => s.trackId == Option.some tid) with
  | Option.some _ =>
    updateFirst (fun s => s.trackId == Option.some tid)
      (fun s => songSaveNormalize (updateSongFromAudio s a)) store
  | Option.none => store ++ [songSaveNormalize (newSongFromAudio tid a)]

/-- The persistence tail of both prediction views, reduced to the rows
it writes: the ids of committed `Prediction` rows and the prediction
ids that own a committed `PredictionAuditLog` row. -/
structure DbTail where
  predictions : List Nat
  audits : List Nat
deriving DecidableEq

/-- views.py lines 296-341 (and 494-517 for the manual route): first
`Prediction.objects.create(...)` commits — Django runs in autocommit
and neither view opens a transaction — then
`PredictionAuditLog.objects.create(...)` runs and may itself raise
(`auditCreateSucceeds = false`), in which case the generic `except`
returns a 500 and the already-committed prediction row stays. The
second component is whether the request succeeded. -/
def persistPredictionAndAudit (db : DbTail) (pid : Nat)
    (auditCreateSucceeds : Bool) : DbTail × Bool :=
  let afterPrediction : DbTail := { db with predictions := db.predictions ++ [pid] }
  if auditCreateSucceeds then
    ({ afterPrediction with audits := afterPrediction.audits ++ [pid] }, true)
  else
    (afterPrediction, false)

/-- A committed `Prediction` row with no `PredictionAuditLog` row. -/
def hasOrphanPrediction (db : DbTail) : Bool :=
  db.predictions.any (fun p => !(db.audits.contains p))

/-! Concrete inputs used to exercise the theorems below. Feature
values are chosen as small integers so that the kernel can evaluate
the comparisons. -/

/-- A reference-dataset row: "Comedy" by Gen Hoshino, popularity 73. -/
def songC3 : Song :=
  { trackId := Option.some "5SuO"
    trackName := Option.some "Comedy"
    artists := Option.some "Gen Hoshino"
    albumName := Option.some "Comedy"
    popularity := Option.some 73
    trackGenre := Option.some "acoustic"
    durationMs := 230666
    danceability := PyF.num 1
    energy := PyF.num 0
    valence := PyF.num 1
    acousticness := PyF.num 0
    instrumentalness := PyF.num 0
    speechiness := Option.none
    liveness := Option.none
    loudness := PyF.num 0
    tempo := PyF.num 120
    mode := 0
    key := Option.none
    timeSignature := Option.none
    explicit := false
    isAcoustic := false
    isInstrumental := false
    isHit := Option.some true }

/-- Catalog metadata for the same track. -/
def infoC3 : TrackInfo :=
  { trackId := "5SuO"
    title := "Comedy"
    artist := "Gen Hoshino"
    album := "Comedy"
    popularity := 73
    durationMs := 230666
    explicitFlag := 0 }

/-- A classifier exposing a probability interface: positive-class
probability 1. -/
def clfProba : Classifier :=
  { predictFn := fun _ => 1
    probaFn := Option.some (fun _ => [0, 1]) }

/-- A classifier with no probability interface. -/
def clfNone : Classifier :=
  { predictFn := fun _ => 0
    probaFn := Option.none }

/-- A length-10 feature vector. -/
def feats10 : List Rat :=
  [0, 0, 0, 0, 0, 0, 0, 0, 0, 0]

/-- A request body with every required field present and numeric. -/
def dataAllFloat (f : String) : Option PyVal :=
  if requiredFields.contains f then Option.some (PyVal.float 0) else Option.none

/-- Every field present; `duration_ms` is the string `"3.5"`, which
converts to the real number 3.5 but not to a Python `int`. -/
def dataBadDuration (f : String) : Option PyVal :=
  if f = "duration_ms" then Option.some (PyVal.str "3.5") else dataAllFloat f

/-- `duration_ms` absent while the present `danceability` value
`"abc"` is unconvertible. -/
def dataMissingAndBad (f : String) : Option PyVal :=
  if f = "duration_ms" then Option.none
  else if f = "danceability" then Option.some (PyVal.str "abc")
  else dataAllFloat f

/-- A feature fetch that always raises. -/
def noFetch : String → Option AudioData :=
  fun _ => Option.none

/-- Two catalog search results, neither tagged `in_dataset`. -/
def searchC7 : List SearchTrack :=
  [{ id := "id1", title := "T1", artist := "A1", inDataset := false },
   { id := "id2", title := "T2", artist := "A2", inDataset := false }]

/-- A fully populated CSV row. -/
def rowBase : CsvRow :=
  { trackId := Option.some "t1"
    trackName := Option.some "Song"
    artists := Option.some "Artist"
    albumName := Option.some "Album"
    popularity := Option.some 73
    trackGenre := Option.some "pop"
    durationMs := Option.some 200000
    danceability := Option.some 1
    energy := Option.some 1
    valence := Option.some 1
    acousticness := Option.some 0
    instrumentalness := Option.some 0
    loudness := Option.some 0
    tempo := Option.some 120
    mode := Option.some 1
    explicitCell := Option.some false
    keyCell := Option.none
    speechiness := Option.none
    liveness := Option.none
    timeSignature := Option.none
    isHitCell := Option.some false }

/-- The same row with an empty `duration_ms` cell. -/
def rowNoDuration : CsvRow :=
  { rowBase with durationMs := Option.none }

/-- The same row with an empty `danceability` cell. -/
def rowNoDance : CsvRow :=
  { rowBase with danceability := Option.none }

/-- A stored song with track id `"id1"` and popularity 10. -/
def s10 : Song :=
  { songC3 with trackId := Option.some "id1", popularity := Option.some 10, isHit := Option.some false }

/-- A store holding only `s10`. -/
def st10 : List Song :=
  [s10]

/-- Freshly resolved audio data for track id `"id1"`: new metadata,
new features, popularity 80. -/
def a10 : AudioData :=
  { trackId := Option.some "id1"
    title := Option.some "New Title"
    artist := Option.some "New Artist"
    album := Option.some "New Album"
    popularity := 80
    durationMs := 100
    danceability := PyF.num 1
    energy := PyF.num 1
    valence := PyF.num 0
    acousticness := PyF.num 1
    instrumentalness := PyF.num 1
    loudness := PyF.num 0
    tempo := PyF.num 100
    mode := 1
    explicitFlag := 1
    source := Option.some "dataset"
    isHitInDataset := Option.some true
    trackGenre := Option.some "pop" }

/-! ## Helper lemmas -/

/-- `convertAll` fails exactly when some listed field fails to fetch
and convert. -/
theorem convertAll_eq_none_iff (data : String → Option PyVal) (l : List String) :
    convertAll data l = Option.none ↔ ∃ f ∈ l, (data f).bind (convertField f) = Option.none := by
  induction l with
  | nil => simp [convertAll]
  | cons f fs ih =>
    simp only [convertAll]
    cases hf : (data f).bind (convertField f) with
    | none =>
      constructor
      · intro _
        exact ⟨f, by simp, hf⟩
      · intro _
        simp
    | some v =>
      cases hc : convertAll data fs with
      | none =>
        simp only [hc] at ih
        constructor
        · intro _
          obtain ⟨g, hg, hgn⟩ := ih.mp (by simp)
          exact ⟨g, List.mem_cons_of_mem f hg, hgn⟩
        · intro _
          simp
      | some vs =>
        simp only [hc] at ih
        constructor
        · intro h; cases h
        · rintro ⟨g, hg, hgn⟩
          rcases List.mem_cons.mp hg with rfl | hg'
          · rw [hf] at hgn; cases hgn
          · exact absurd (ih.mpr ⟨g, hg', hgn⟩) (by simp)

/-- The update of the first `p`-satisfying element is found again by
`find?` when `f` preserves `p`. -/
theorem find?_updateFirst (p : Song → Bool) (f : Song → Song) (l : List Song) (a : Song)
    (h : l.find? p = Option.some a) (hpres : ∀ x, p x = true → p (f x) = true) :
    (updateFirst p f l).find? p = Option.some (f a) := by
  induction l with
  | nil => cases h
  | cons s rest ih =>
    cases hs : p s with
    | true =>
      simp only [List.find?_cons, hs, if_pos] at h
      obtain rfl : s = a := by injection h
      simp [updateFirst, hs, List.find?_cons, hpres s hs]
    | false =>
      simp only [List.find?_cons, hs, Bool.false_eq_true, if_false] at h
      simp [updateFirst, hs, List.find?_cons, ih h]

/-- When no search result is tagged `in_dataset`, the candidate loop
finds nothing. -/
theorem firstCandidate_eq_none (rs : List SearchTrack) (fetch : String → Option AudioData)
    (h : ∀ r ∈ rs, r.inDataset = false) : firstCandidate rs fetch = Option.none := by
  induction rs with
  | nil => rfl
  | cons r rest ih =>
    have hr : r.inDataset = false := h r (by simp)
    simp [firstCandidate, hr]
    exact ih (fun x hx => h x (by simp [hx]))

/-! ## The claims -/

/-- Claim C1: when the song carries a reference-dataset label that
disagrees with the model's label, reconciliation returns the dataset
label, confidence `max(60.0, model_confidence + 10.0)` and
`adjusted = true`; in particular model FLOP at 50.0 against dataset
HIT gives HIT at 60.0, adjusted. -/
theorem claim_C1 (mh ref : Bool) (mc : Rat) (h : ref ≠ mh) :
    reconcile mh mc true ref
      = { isHit := ref, confidence := max 60 (mc + 10), adjusted := true } ∧
    reconcile false 50 true true
      = { isHit := true, confidence := 60, adjusted := true } := by
  constructor
  · cases mh <;> cases ref <;> simp_all [reconcile]
  · have : (max (60:Rat) (50 + 10)) = 60 := by norm_num
    simp [reconcile, this]

/-- Witness for C1 at the concrete disagreement instance. -/
theorem claim_C1_witness :
    reconcile false 50 true true
      = { isHit := true, confidence := 60, adjusted := true } :=
  (claim_C1 false true 50 (by decide)).2

/-- Claim C2: a reference-dataset label agreeing with the model keeps
the model's label with confidence `min(95.0, model_confidence + 5.0)`
and `adjusted = false` (so 92.0 becomes 95.0, not 97.0), and without a
reference label the model's output passes through unchanged. -/
theorem claim_C2 (mh r : Bool) (mc : Rat) :
    reconcile mh mc true mh
      = { isHit := mh, confidence := min 95 (mc + 5), adjusted := false } ∧
    (reconcile true 92 true true).confidence = 95 ∧
    reconcile mh mc false r
      = { isHit := mh, confidence := mc, adjusted := false } := by
  refine ⟨?_, ?_, ?_⟩
  · simp [reconcile]
  · have : (min (95:Rat) (92 + 5)) = 95 := by norm_num
    simp [reconcile, this]
  · simp [reconcile]

/-- Claim C3: resolving by identifier, with the catalog metadata
fetched, consults the dataset by title and first-listed artist —
exact case-insensitive title match first, substring fallback second —
yielding `source = "dataset"` on a hit; on a miss it uses the remote
feature endpoint (`source = "spotify_api"`); and fails with
`FeaturesUnavailableError` when that is unavailable. -/
theorem claim_C3 (store : List Song) (info : TrackInfo) (api : Option ApiFeatures) :
    (∀ s, datasetLookup store info.title info.artist = Option.some s →
        get_audio_features store info api
          = Except.ok (datasetAudio (Option.some info.trackId) s) ∧
        (datasetAudio (Option.some info.trackId) s).source = Option.some "dataset") ∧
    (datasetLookup store info.title info.artist = Option.none →
        (∀ f, api = Option.some f →
            get_audio_features store info api = Except.ok (apiAudio info f) ∧
            (apiAudio info f).source = Option.some "spotify_api") ∧
        (api = Option.none →
            get_audio_features store info api = Except.error FeatErr.featuresUnavailable)) ∧
    (∀ s, store.find? (exactMatch (strTrim info.title) (firstArtist info.artist))
            = Option.some s →
        datasetLookup store info.title info.artist = Option.some s ∧
        exactMatch (strTrim info.title) (firstArtist info.artist) s = true) ∧
    (store.find? (exactMatch (strTrim info.title) (firstArtist info.artist)) = Option.none →
        datasetLookup store info.title info.artist
          = store.find? (containsMatch (strTrim info.title) (firstArtist info.artist)) ∧
        ∀ s, store.find? (containsMatch (strTrim info.title) (firstArtist info.artist))
              = Option.some s →
            containsMatch (strTrim info.title) (firstArtist info.artist) s = true) := by
  refine ⟨?_, ?_, ?_, ?_⟩
  · intro s hs
    exact ⟨by simp [get_audio_features, hs], rfl⟩
  · intro hmiss
    constructor
    · intro f hf
      exact ⟨by simp [get_audio_features, hmiss, hf], rfl⟩
    · intro hnone
      simp [get_audio_features, hmiss, hnone]
  · intro s hs
    exact ⟨by simp [datasetLookup, hs], List.find?_some hs⟩
  · intro hnone
    exact ⟨by simp [datasetLookup, hnone], fun s hs => List.find?_some hs⟩

/-- Witness for C3: a store holding the "Comedy" row resolves that
track from the dataset with `source = "dataset"`. -/
theorem claim_C3_witness :
    get_audio_features [songC3] infoC3 Option.none
      = Except.ok (datasetAudio (Option.some "5SuO") songC3) ∧
    (datasetAudio (Option.some "5SuO") songC3).source = Option.some "dataset" :=
  (claim_C3 [songC3] infoC3 Option.none).1 songC3 (by decide)

/-- Claim C4: `predict_song` returns a boolean label together with the
positive-class probability as a percentage rounded to two decimals,
and exactly 50.00 when the classifier exposes no probability
interface. -/
theorem claim_C4 (model : Classifier) (features : List Rat)
    (_hlen : features.length = 10) :
    (∀ pf, model.probaFn = Option.some pf → (pf features).length = 2 →
        predict_song model features
          = (model.predictFn features != 0, pyRound2 ((pf features).getD 1 0 * 100))) ∧
    (model.probaFn = Option.none →
        predict_song model features = (model.predictFn features != 0, 50)) := by
  constructor
  · intro pf hpf hlen2
    simp [predict_song, hpf, hlen2]
  · intro h
    simp only [predict_song, h]
    norm_num [pyRound2, roundHalfEven]

/-- Witness for C4: a concrete classifier with positive-class
probability 1 yields confidence 100.00; one with no probability
interface yields 50.00. -/
theorem claim_C4_witness :
    predict_song clfProba feats10 = (true, 100) ∧
    predict_song clfNone feats10 = (false, 50) := by
  constructor
  · have h := (claim_C4 clfProba feats10 (by decide)).1 (fun _ => [0, 1]) rfl (by decide)
    rw [h]
    norm_num [clfProba, pyRound2, roundHalfEven]
  · have h := (claim_C4 clfNone feats10 (by decide)).2 rfl
    rw [h]
    rfl

/-- Counterexample to claim C5 as stated: with every field present,
`duration_ms = "3.5"` converts to the real number 3.5 and yet the
build fails with `InvalidFeatureTypeError` (the field uses Python
`int`, which rejects `"3.5"`); and with `duration_ms` absent while
the present `danceability = "abc"` is unconvertible, the build fails
with `MissingFeatureError`, not `InvalidFeatureTypeError`. -/
theorem claim_C5_counterexample :
    build dataBadDuration = Except.error BuildError.invalid ∧
    pyFloat (PyVal.str "3.5") = Option.some (7/2) ∧
    build dataMissingAndBad = Except.error (BuildError.missing ["duration_ms"]) ∧
    pyFloat (PyVal.str "abc") = Option.none := by
  refine ⟨rfl, ?_, rfl, by decide⟩
  show pyFloatOfString "3.5" = Option.some (7/2)
  simp +decide [pyFloatOfString, trimChars, parseUnsignedFloat, splitChar, parseDigits, parseFrac]
  norm_num

/-- Claim C5 as amended: the build fails with `MissingFeatureError`,
naming exactly the absent keys, iff some required key is absent;
it fails with `InvalidFeatureTypeError` iff no key is absent and some
present value fails its field's conversion (`int` for `duration_ms`
and `mode`, `float` for the rest); otherwise it succeeds. -/
theorem claim_C5 (data : String → Option PyVal) :
    ((∃ ks, build data = Except.error (BuildError.missing ks))
        ↔ ∃ f ∈ requiredFields, (data f).isNone = true) ∧
    (∀ ks, build data = Except.error (BuildError.missing ks) →
        ks = requiredFields.filter (fun f => (data f).isNone)) ∧
    (build data = Except.error BuildError.invalid
        ↔ ((∀ f ∈ requiredFields, (data f).isSome = true) ∧
           ∃ f ∈ requiredFields, (data f).bind (convertField f) = Option.none)) ∧
    ((∃ v, build data = Except.ok v)
        ↔ ∀ f ∈ requiredFields, ((data f).bind (convertField f)).isSome = true) := by
  have hfilter : (requiredFields.filter (fun f => (data f).isNone)).isEmpty = true ↔
      ∀ f ∈ requiredFields, ¬ ((data f).isNone = true) := by
    rw [List.isEmpty_iff, List.filter_eq_nil_iff]
  by_cases hm : (requiredFields.filter (fun f => (data f).isNone)).isEmpty = true
  · have hpresent : ∀ f ∈ requiredFields, (data f).isSome = true := by
      intro f hf
      have hnn := hfilter.mp hm f hf
      cases h : data f with
      | none => rw [h] at hnn; simp at hnn
      | some v => simp
    have hnoabsent : ¬ ∃ f ∈ requiredFields, (data f).isNone = true := by
      rintro ⟨f, hf, hn⟩
      exact hfilter.mp hm f hf hn
    cases hc : convertAll data requiredFields with
    | none =>
      have hbuild : build data = Except.error BuildError.invalid := by
        simp [build, hm, hc]
      refine ⟨?_, ?_, ?_, ?_⟩
      · rw [hbuild]
        constructor
        · rintro ⟨ks, hks⟩; cases hks
        · intro h; exact absurd h hnoabsent
      · intro ks hks; rw [hbuild] at hks; cases hks
      · rw [hbuild]
        exact ⟨fun _ => ⟨hpresent, (convertAll_eq_none_iff data requiredFields).mp hc⟩,
               fun _ => rfl⟩
      · rw [hbuild]
        constructor
        · rintro ⟨v, hv⟩; cases hv
        · intro hall
          obtain ⟨g, hg, hgn⟩ := (convertAll_eq_none_iff data requiredFields).mp hc
          have := hall g hg
          rw [hgn] at this
          cases this
    | some v =>
      have hbuild : build data = Except.ok v := by
        simp [build, hm, hc]
      refine ⟨?_, ?_, ?_, ?_⟩
      · rw [hbuild]
        constructor
        · rintro ⟨ks, hks⟩; cases hks
        · intro h; exact absurd h hnoabsent
      · intro ks hks; rw [hbuild] at hks; cases hks
      · rw [hbuild]
        constructor
        · intro h; cases h
        · rintro ⟨-, g, hg, hgn⟩
          have : convertAll data requiredFields = Option.none :=
            (convertAll_eq_none_iff data requiredFields).mpr ⟨g, hg, hgn⟩
          rw [hc] at this; cases this
      · rw [hbuild]
        constructor
        · intro _
          intro f hf
          cases hb : (data f).bind (convertField f) with
          | none =>
            have : convertAll data requiredFields = Option.none :=
              (convertAll_eq_none_iff data requiredFields).mpr ⟨f, hf, hb⟩
            rw [hc] at this; cases this
          | some w => simp
        · intro _; exact ⟨v, rfl⟩
  · have hbuild : build data
        = Except.error (BuildError.missing (requiredFields.filter (fun f => (data f).isNone))) := by
      simp [build, hm]
    have habsent : ∃ f ∈ requiredFields, (data f).isNone = true := by
      by_contra hcon
      push_neg at hcon
      exact hm (hfilter.mpr (fun f hf => by simp [hcon f hf]))
    refine ⟨?_, ?_, ?_, ?_⟩
    · rw [hbuild]
      exact ⟨fun _ => habsent, fun _ => ⟨_, rfl⟩⟩
    · intro ks hks
      rw [hbuild] at hks
      injection hks with h1
      injection h1 with h2
      exact h2.symm
    · rw [hbuild]
      constructor
      · intro h; cases h
      · rintro ⟨hall, -⟩
        obtain ⟨f, hf, hn⟩ := habsent
        have := hall f hf
        cases hd : data f with
        | none => rw [hd] at this; cases this
        | some w => rw [hd] at hn; cases hn
    · rw [hbuild]
      constructor
      · rintro ⟨v, hv⟩; cases hv
      · intro hall
        obtain ⟨f, hf, hn⟩ := habsent
        have := hall f hf
        cases hd : data f with
        | none => rw [hd] at this; simp at this
        | some w => rw [hd] at hn; cases hn

/-- Claim C6: every stored `Song` with a non-null popularity has
`is_hit = (popularity >= 50)`: the `save` hook recomputes it on every
model-layer save, and the CSV import computes it from the row's
popularity; in particular popularity 73 gives `is_hit = true`. -/
theorem claim_C6 :
    (∀ s p, s.popularity = Option.some p →
        (songSaveNormalize s).isHit = Option.some (decide (50 ≤ p))) ∧
    (∀ store row sr, importRow store row = RowOutcome.record sr →
        ∀ q, row.popularity = Option.some q →
        sr.isHit = Option.some (decide (50 ≤ ratTrunc q))) ∧
    (∀ s, s.popularity = Option.some 73 →
        (songSaveNormalize s).isHit = Option.some true) := by
  refine ⟨?_, ?_, ?_⟩
  · intro s p hp
    simp [songSaveNormalize, hp]
  · intro store row sr hrec q hq
    rw [importRow] at hrec
    split at hrec
    · cases hrec
    · split at hrec
      · injection hrec with h
        subst h
        simp [hq]
      · cases hrec
  · intro s hp
    have h50 : (decide (50 ≤ (73:Int))) = true := by decide
    simp [songSaveNormalize, hp, h50]

/-- Witness for C6 at the concrete "Comedy" row (popularity 73). -/
theorem claim_C6_witness :
    songC3.popularity = Option.some 73 ∧
    (songSaveNormalize songC3).isHit = Option.some true :=
  ⟨rfl, claim_C6.2.2 songC3 rfl⟩

/-- Counterexample to claim C7 as stated: with no dataset match and an
EMPTY catalog search result (so that, vacuously, no search candidate
is in the dataset), the request fails with the 404 "not found on
Spotify" response, not with `NotInTrainingDataError`. -/
theorem claim_C7_counterexample :
    resolveByTitleArtist [] "Foo" "Bar" Option.none [] noFetch
      = ResolveOutcome.notFoundOnSpotify ∧
    isNotInTraining (resolveByTitleArtist [] "Foo" "Bar" Option.none [] noFetch)
      = false := by
  exact ⟨rfl, rfl⟩

/-- Claim C7 as amended: when the dataset lookup misses, the catalog
search returns at least one candidate, and no candidate is tagged
`in_dataset`, the request fails with `NotInTrainingDataError` whose
hint lists at most three `(id, title, artist)` tuples drawn from the
search results. -/
theorem claim_C7 (store : List Song) (title artist : String)
    (searchOne : Option SearchTrack) (searchFive : List SearchTrack)
    (fetch : String → Option AudioData)
    (hmiss : datasetLookup store title artist = Option.none)
    (hne : searchFive ≠ [])
    (hnone : ∀ r ∈ searchFive, r.inDataset = false) :
    resolveByTitleArtist store title artist searchOne searchFive fetch
      = ResolveOutcome.notInTrainingData
          ((searchFive.take 3).map (fun r => (r.id, r.title, r.artist))) ∧
    ((searchFive.take 3).map (fun r => (r.id, r.title, r.artist))).length ≤ 3 := by
  constructor
  · cases searchFive with
    | nil => cases hne rfl
    | cons r rest =>
      simp [resolveByTitleArtist, hmiss,
        firstCandidate_eq_none (r :: rest) fetch hnone]
  · simp

/-- Witness for C7: two search results, neither in the dataset, an
empty store. -/
theorem claim_C7_witness :
    resolveByTitleArtist [] "Foo" "Bar" Option.none searchC7 noFetch
      = ResolveOutcome.notInTrainingData
          ((searchC7.take 3).map (fun r => (r.id, r.title, r.artist))) ∧
    ((searchC7.take 3).map (fun r => (r.id, r.title, r.artist))).length ≤ 3 :=
  claim_C7 [] "Foo" "Bar" Option.none searchC7 noFetch rfl (by decide) (by decide)

/-- Claim C8, settled against the code: the two creates are NOT
atomic. `Prediction.objects.create` commits on its own (autocommit,
no `transaction.atomic` in either view); when the subsequent
`PredictionAuditLog.objects.create` raises, the request fails (500)
and the database is left with a `Prediction` row that has no audit
row. -/
theorem claim_C8 :
    (persistPredictionAndAudit { predictions := [], audits := [] } 1 false).2 = false ∧
    (persistPredictionAndAudit { predictions := [], audits := [] } 1 false).1.predictions = [1] ∧
    (persistPredictionAndAudit { predictions := [], audits := [] } 1 false).1.audits = [] ∧
    hasOrphanPrediction
      (persistPredictionAndAudit { predictions := [], audits := [] } 1 false).1 = true := by
  exact ⟨rfl, rfl, rfl, rfl⟩

/-- Counterexample to claim C9 as stated: a row whose `duration_ms`
cell is empty is not imported with the value defaulted to 0 — the
`int(...)` conversion raises and the row is skipped; and a row whose
`danceability` cell is empty is imported with NaN, not 0. -/
theorem claim_C9_counterexample :
    importRow [] rowNoDuration = RowOutcome.rowError ∧
    importedDance (importRow [] rowNoDance) = Option.some PyF.nan := by
  exact ⟨rfl, rfl⟩

/-- Claim C9 as amended: an empty required numeric cell never fails
the whole import — a row with an empty `duration_ms`/`mode` cell is
skipped individually (the loop continues), empty float cells are
stored as NaN — and `is_hit` is always computed from the row's
popularity, never read from an `is_hit` column of the file. -/
theorem claim_C9 (store : List Song) (rows : List CsvRow) (row : CsvRow) :
    (importRow store row = RowOutcome.rowError →
        importAll store (row :: rows) = importAll store rows) ∧
    (∀ s, importRow store row = RowOutcome.record s →
        s.danceability = cellFloat row.danceability ∧
        s.energy = cellFloat row.energy ∧
        s.valence = cellFloat row.valence ∧
        s.acousticness = cellFloat row.acousticness ∧
        s.instrumentalness = cellFloat row.instrumentalness ∧
        s.loudness = cellFloat row.loudness ∧
        s.tempo = cellFloat row.tempo ∧
        s.isHit = (row.popularity.map ratTrunc).map (fun p => decide (50 ≤ p))) ∧
    ((row.durationMs = Option.none ∨ row.mode = Option.none) →
        importRow store row = RowOutcome.skippedExisting ∨
        importRow store row = RowOutcome.rowError) ∧
    (∀ v, importRow store { row with isHitCell := v } = importRow store row) := by
  refine ⟨?_, ?_, ?_, ?_⟩
  · intro h
    simp [importAll, List.filterMap_cons, h]
  · intro s hrec
    rw [importRow] at hrec
    split at hrec
    · cases hrec
    · split at hrec
      · injection hrec with h
        subst h
        refine ⟨rfl, rfl, rfl, rfl, rfl, rfl, rfl, rfl⟩
      · cases hrec
  · intro h
    rw [importRow]
    split
    · exact Or.inl rfl
    · rcases h with hd | hm
      · right
        rw [hd]
        rfl
      · right
        rw [hm]
        cases cellInt row.durationMs <;> rfl
  · intro v
    rfl

/-- Witness for C9: the row with an empty duration is skipped without
affecting the rest of the import, and the import ignores a value in
the file's `is_hit` column. -/
theorem claim_C9_witness :
    importAll [] [rowNoDuration] = importAll [] [] ∧
    importRow [] { rowNoDance with isHitCell := Option.some true }
      = importRow [] rowNoDance :=
  ⟨(claim_C9 [] [] rowNoDuration).1 rfl,
   (claim_C9 [] [] rowNoDance).2.2.2 (Option.some true)⟩

/-- Claim C10 (implicit frame effect): a predict-by-identifier request
whose track id already has a stored row overwrites that row's title,
artists, album, popularity and all ten feature fields with the newly
resolved values, and the save hook recomputes `is_hit` from the new
popularity. -/
theorem claim_C10 (store : List Song) (tid : String) (a : AudioData) (s₀ : Song)
    (h : store.find? (fun s => s.trackId == Option.some tid) = Option.some s₀) :
    (upsertSongByTrackId store tid a).find? (fun s => s.trackId == Option.some tid)
      = Option.some (songSaveNormalize (updateSongFromAudio s₀ a)) ∧
    (songSaveNormalize (updateSongFromAudio s₀ a)).trackName = a.title ∧
    (songSaveNormalize (updateSongFromAudio s₀ a)).artists = a.artist ∧
    (songSaveNormalize (updateSongFromAudio s₀ a)).albumName = a.album ∧
    (songSaveNormalize (updateSongFromAudio s₀ a)).popularity = Option.some a.popularity ∧
    (songSaveNormalize (updateSongFromAudio s₀ a)).durationMs = a.durationMs ∧
    (songSaveNormalize (updateSongFromAudio s₀ a)).danceability = a.danceability ∧
    (songSaveNormalize (updateSongFromAudio s₀ a)).energy = a.energy ∧
    (songSaveNormalize (updateSongFromAudio s₀ a)).valence = a.valence ∧
    (songSaveNormalize (updateSongFromAudio s₀ a)).acousticness = a.acousticness ∧
    (songSaveNormalize (updateSongFromAudio s₀ a)).instrumentalness = a.instrumentalness ∧
    (songSaveNormalize (updateSongFromAudio s₀ a)).loudness = a.loudness ∧
    (songSaveNormalize (updateSongFromAudio s₀ a)).tempo = a.tempo ∧
    (songSaveNormalize (updateSongFromAudio s₀ a)).mode = a.mode ∧
    (songSaveNormalize (updateSongFromAudio s₀ a)).explicit = (a.explicitFlag == 1) ∧
    (songSaveNormalize (updateSongFromAudio s₀ a)).isHit
      = Option.some (decide (50 ≤ a.popularity)) := by
  have hpres : ∀ x, (x.trackId == Option.some tid) = true →
      ((songSaveNormalize (updateSongFromAudio x a)).trackId == Option.some tid) = true := by
    intro x hx
    simpa [songSaveNormalize, updateSongFromAudio] using hx
  refine ⟨?_, rfl, rfl, rfl, rfl, rfl, rfl, rfl, rfl, rfl, rfl, rfl, rfl, rfl, rfl, rfl⟩
  rw [upsertSongByTrackId, h]
  exact find?_updateFirst _ _ store s₀ h hpres

/-- Witness for C10: the stored row for `"id1"` (popularity 10,
`is_hit = false`) is overwritten by a resolution with popularity 80;
the saved row is the normalized update and its `is_hit` is now
`true`. -/
theorem claim_C10_witness :
    (upsertSongByTrackId st10 "id1" a10).find? (fun s => s.trackId == Option.some "id1")
      = Option.some (songSaveNormalize (updateSongFromAudio s10 a10)) ∧
    (songSaveNormalize (updateSongFromAudio s10 a10)).isHit = Option.some true :=
  ⟨(claim_C10 st10 "id1" a10 s10 (by decide)).1, by decide⟩

end HitSong
